import Mathlib

/-!
Verification of the task-list reactive component of `testdrivenio/reactive-django`.

The component under verification is `TaskView` in `src/tasks/components/task.py`.
Its persistence collaborator (`tasks/models.py`, the Django ORM `Task` model and
its record store) is not part of the provided sources, so the store is modelled
from the specification (spec.md §2, §3, §6): a record collection with fields
`id` (auto-assigned) and `title` (text), exposed through create / read /
update / delete by identifier, where a write may fail (spec §7 (c)).

Python exceptions are modelled by `Except PyErr`; the bare `except: pass`
blocks of the source are modelled by running the method body in `Except` and
discarding any error (returning the pre-call state, since no externally
visible mutation precedes the failing call in any of the bodies).
-/

namespace ReactiveDjango

/-- A persisted task record: `id` (assigned by the store) and `title`. -/
structure Task where
  id : Nat
  title : String
  deriving Repr, DecidableEq

/-- Python exceptions that the component's code paths can raise. -/
inductive PyErr where
  /-- `UnboundLocalError`: a local variable referenced before assignment. -/
  | unboundLocal
  /-- `Task.DoesNotExist` (or `MultipleObjectsReturned`) from `Task.objects.get`. -/
  | doesNotExist
  /-- A failure of the record store on a write (create / save / delete). -/
  | storeFailure
  deriving Repr, DecidableEq

/-- Modelled from the spec: the Record Store (spec §2, §6) persisting Task
records, with auto-assigned ids (`nextId`) and a reliability flag `writeOk`
modelling whether a store write succeeds (spec §7 (c) store failure). The
actual `tasks/models.py` is not among the provided sources. -/
structure Store where
  rows : List Task
  nextId : Nat
  writeOk : Bool
  deriving Repr, DecidableEq

/-- Modelled from the spec: `Task.objects.get(id=i)` — returns the unique
record with id `i`, or nothing when no record (or more than one) matches;
the Python original raises `DoesNotExist` / `MultipleObjectsReturned` then. -/
def Store.get (s : Store) (i : Nat) : Option Task :=
  match s.rows.filter (fun r => r.id == i) with
  | [t] => some t
  | _ => none

/-- Modelled from the spec: `Task(title=t).save()` on a fresh instance —
creates a record with an auto-assigned id; fails when the store write fails. -/
def Store.create (s : Store) (title : String) : Except PyErr (Store × Task) :=
  if s.writeOk then
    let t : Task := ⟨s.nextId, title⟩
    .ok ({ s with rows := s.rows ++ [t], nextId := s.nextId + 1 }, t)
  else .error .storeFailure

/-- Modelled from the spec: `task.save()` on an already-persisted instance —
overwrites the record with the same id; fails when the store write fails. -/
def Store.saveExisting (s : Store) (t : Task) : Except PyErr Store :=
  if s.writeOk then
    .ok { s with rows := s.rows.map (fun r => if r.id == t.id then t else r) }
  else .error .storeFailure

/-- Modelled from the spec: `task.delete()` — removes the record(s) with the
given id; fails when the store write fails. -/
def Store.deleteRow (s : Store) (i : Nat) : Except PyErr Store :=
  if s.writeOk then
    .ok { s with rows := s.rows.filter (fun r => r.id != i) }
  else .error .storeFailure

/-- The state of the `TaskView` component together with its store and the
Django messages emitted so far: `title` is the input buffer, `tasks` the
snapshot re-read on `hydrate`. -/
structure TaskView where
  title : String
  tasks : List Task
  store : Store
  msgs : List String
  deriving Repr, DecidableEq

/-- `TaskView.hydrate` (task.py lines 12–13): `self.tasks = Task.objects.all()`. -/
def TaskView.hydrate (v : TaskView) : TaskView :=
  { v with tasks := v.store.rows }

/-- `TaskView.add_task` (task.py lines 15–22). If the title buffer is
non-empty a Task is created and saved; the buffer is then cleared and a
success message referencing the local `task` is emitted. When the buffer is
empty, the local `task` was never assigned, so the `messages.success` line
raises `UnboundLocalError`; a failing store write propagates unhandled. -/
def TaskView.add_task (v : TaskView) : Except PyErr TaskView :=
  if v.title ≠ "" then
    match v.store.create v.title with
    | .error e => .error e
    | .ok (st, t) =>
      .ok { v with
              store := st
              title := ""
              msgs := v.msgs ++ ["Successfully Added: " ++ t.title] }
  else
    .error .unboundLocal

/-- Body of `TaskView.delete_task` inside the `try:` (task.py lines 25–29). -/
def TaskView.delete_task_body (v : TaskView) (i : Nat) : Except PyErr TaskView :=
  match v.store.get i with
  | none => .error .doesNotExist
  | some t =>
    match v.store.deleteRow i with
    | .error e => .error e
    | .ok st =>
      .ok { v with
              store := st
              msgs := v.msgs ++ ["Successfully Deleted: " ++ t.title] }

/-- `TaskView.delete_task` (task.py lines 24–31): the body under a bare
`except: pass`, which swallows every exception. -/
def TaskView.delete_task (v : TaskView) (i : Nat) : TaskView :=
  match v.delete_task_body i with
  | .ok w => w
  | .error _ => v

/-- Body of `TaskView.preview_task` inside the `try:` (task.py lines 34–36). -/
def TaskView.preview_task_body (v : TaskView) (i : Nat) : Except PyErr TaskView :=
  match v.store.get i with
  | none => .error .doesNotExist
  | some t => .ok { v with title := t.title }

/-- `TaskView.preview_task` (task.py lines 33–39): the body under a bare
`except: pass`. -/
def TaskView.preview_task (v : TaskView) (i : Nat) : TaskView :=
  match v.preview_task_body i with
  | .ok w => w
  | .error _ => v

/-- Body of `TaskView.update_task` inside the `try:` (task.py lines 42–49):
look the Task up, overwrite its title with the buffer, save, clear buffer. -/
def TaskView.update_task_body (v : TaskView) (i : Nat) : Except PyErr TaskView :=
  match v.store.get i with
  | none => .error .doesNotExist
  | some t =>
    match v.store.saveExisting { t with title := v.title } with
    | .error e => .error e
    | .ok st => .ok { v with store := st, title := "" }

/-- `TaskView.update_task` (task.py lines 41–52): the body under a bare
`except: pass`, which swallows every exception (including a store failure
on the save, in which case the buffer is retained). -/
def TaskView.update_task (v : TaskView) (i : Nat) : TaskView :=
  match v.update_task_body i with
  | .ok w => w
  | .error _ => v

/-! ### Helper lemmas -/

/-- A successful `Store.get i` returns a record whose id is `i`. -/
theorem Store.get_id_eq {s : Store} {i : Nat} {t : Task} (h : s.get i = some t) :
    t.id = i := by
  unfold Store.get at h
  rcases hf : s.rows.filter (fun r => r.id == i) with _ | ⟨a, _ | ⟨b, l⟩⟩ <;> rw [hf] at h
  · exact absurd h (by simp)
  · have ha : a ∈ s.rows.filter (fun r => r.id == i) := hf ▸ List.mem_cons_self a []
    have hbeq := (List.mem_filter.mp ha).2
    have hat : a = t := by simpa using h
    subst hat
    simpa using hbeq
  · exact absurd h (by simp)

/-- A successful `Store.get i` means the rows with id `i` are exactly `[t]`. -/
theorem Store.get_filter_eq {s : Store} {i : Nat} {t : Task} (h : s.get i = some t) :
    s.rows.filter (fun r => r.id == i) = [t] := by
  unfold Store.get at h
  rcases hf : s.rows.filter (fun r => r.id == i) with _ | ⟨a, _ | ⟨b, l⟩⟩ <;> rw [hf] at h
  · exact absurd h (by simp)
  · have hat : a = t := by simpa using h
    rw [hf, hat]
  · exact absurd h (by simp)

/-- If no row has id `i`, `Store.get i` finds nothing. -/
theorem Store.get_eq_none {s : Store} {i : Nat} (h : ∀ t ∈ s.rows, t.id ≠ i) :
    s.get i = none := by
  unfold Store.get
  have : s.rows.filter (fun r => r.id == i) = [] := by
    rw [List.filter_eq_nil_iff]
    intro a ha
    simpa using h a ha
  rw [this]

/-- Replacing the rows whose id is `i` by `t` is the identity when no row
has id `i`. -/
theorem map_replace_of_filter_nil {l : List Task} {i : Nat} {t : Task}
    (h : l.filter (fun r => r.id == i) = []) :
    l.map (fun r => if r.id == i then t else r) = l := by
  induction l with
  | nil => rfl
  | cons a l ih =>
    rw [List.filter_cons] at h
    by_cases ha : (a.id == i) = true
    · rw [if_pos ha] at h
      exact absurd h (by simp)
    · rw [if_neg ha] at h
      simp only [List.map_cons, if_neg ha, ih h]

/-- Replacing the rows whose id is `i` by `t` is the identity when the rows
with id `i` are exactly `[t]`. -/
theorem map_replace_self {l : List Task} {i : Nat} {t : Task}
    (h : l.filter (fun r => r.id == i) = [t]) :
    l.map (fun r => if r.id == i then t else r) = l := by
  induction l with
  | nil => exact absurd h (by simp)
  | cons a l ih =>
    rw [List.filter_cons] at h
    by_cases ha : (a.id == i) = true
    · rw [if_pos ha] at h
      have hat : a = t := (List.cons_eq_cons.mp h).1
      have hnil : l.filter (fun r => r.id == i) = [] := (List.cons_eq_cons.mp h).2
      subst hat
      simp only [List.map_cons, if_pos ha, map_replace_of_filter_nil hnil]
    · rw [if_neg ha] at h
      simp only [List.map_cons, if_neg ha, ih h]

/-- Characterization of a successful `add_task`: with a non-empty buffer and a
working store, exactly one new record is appended (with the next id and the
buffer as title), the buffer is cleared, and a success message is emitted. -/
theorem add_task_ok (v : TaskView) (h : v.title ≠ "") (hw : v.store.writeOk = true) :
    v.add_task = Except.ok
      { v with
          title := ""
          store := { v.store with rows := v.store.rows ++ [⟨v.store.nextId, v.title⟩], nextId := v.store.nextId + 1 }
          msgs := v.msgs ++ ["Successfully Added: " ++ v.title] } := by
  unfold TaskView.add_task Store.create
  rw [if_pos h]
  simp [hw]

/-- Characterization of a successful `update_task` on an existing id: the
matching record's title is overwritten with the buffer and the buffer is
cleared; nothing else changes. -/
theorem update_task_ok (v : TaskView) (i : Nat) (t : Task)
    (hget : v.store.get i = some t) (hw : v.store.writeOk = true) :
    v.update_task i = { v with
        title := ""
        store := { v.store with rows := v.store.rows.map (fun r => if r.id == i then ⟨i, v.title⟩ else r) } } := by
  have hid := Store.get_id_eq hget
  simp only [TaskView.update_task, TaskView.update_task_body, hget, Store.saveExisting, hw,
    if_true, hid]

/-! ### Claims -/

/-- C1: the spec says `add_task` with an empty title buffer creates no Task,
leaves the store unchanged and completes without raising any error. The code
does skip the write, but the unconditional `messages.success` line then
references the local `task` that was never assigned, raising
`UnboundLocalError`: evaluated at an empty buffer, `add_task` raises. -/
theorem C1_add_task_empty_title_raises :
    TaskView.add_task ⟨"", [], ⟨[⟨1, "a"⟩], 2, true⟩, []⟩
      = Except.error PyErr.unboundLocal := rfl

/-- C2 counterexample: a store write failure during `update_task` on an
existing id does NOT propagate to the caller — the method's bare `except`
swallows it and the call returns normally with the state unchanged, refuting
the claim that every failing store write propagates as a fatal error. -/
theorem C2_store_failure_swallowed :
    TaskView.update_task_body ⟨"x", [], ⟨[⟨1, "a"⟩], 2, false⟩, []⟩ 1
        = Except.error PyErr.storeFailure
      ∧ TaskView.update_task ⟨"x", [], ⟨[⟨1, "a"⟩], 2, false⟩, []⟩ 1
        = ⟨"x", [], ⟨[⟨1, "a"⟩], 2, false⟩, []⟩ := ⟨rfl, rfl⟩

/-- C2 (amended): a failing store write propagates as a fatal error only out
of `add_task`; `delete_task` and `update_task` swallow the failure via their
bare `except` and return with the component state unchanged. -/
theorem C2_amended_write_failure (v : TaskView) (i : Nat)
    (h : v.title ≠ "") (hw : v.store.writeOk = false) :
    v.add_task = Except.error PyErr.storeFailure
      ∧ v.delete_task i = v ∧ v.update_task i = v := by
  refine ⟨?_, ?_, ?_⟩
  · simp [TaskView.add_task, Store.create, h, hw]
  · cases hg : v.store.get i with
    | none => simp [TaskView.delete_task, TaskView.delete_task_body, hg]
    | some t => simp [TaskView.delete_task, TaskView.delete_task_body, hg, Store.deleteRow, hw]
  · cases hg : v.store.get i with
    | none => simp [TaskView.update_task, TaskView.update_task_body, hg]
    | some t => simp [TaskView.update_task, TaskView.update_task_body, hg, Store.saveExisting, hw]

/-- Witness for `C2_amended_write_failure` at a concrete failing store. -/
theorem C2_amended_write_failure_witness :
    TaskView.add_task ⟨"x", [], ⟨[⟨1, "a"⟩], 2, false⟩, []⟩
        = Except.error PyErr.storeFailure
      ∧ TaskView.delete_task ⟨"x", [], ⟨[⟨1, "a"⟩], 2, false⟩, []⟩ 1
        = ⟨"x", [], ⟨[⟨1, "a"⟩], 2, false⟩, []⟩
      ∧ TaskView.update_task ⟨"x", [], ⟨[⟨1, "a"⟩], 2, false⟩, []⟩ 1
        = ⟨"x", [], ⟨[⟨1, "a"⟩], 2, false⟩, []⟩ :=
  C2_amended_write_failure ⟨"x", [], ⟨[⟨1, "a"⟩], 2, false⟩, []⟩ 1 (by decide) rfl

/-- C3 counterexample: with an empty buffer, `update_task` on an existing id
persists a Task whose title is the empty string — no save is ever rejected,
refuting the invariant that every stored Task has a non-empty title. -/
theorem C3_empty_title_persisted :
    (TaskView.update_task ⟨"", [], ⟨[⟨1, "a"⟩], 2, true⟩, []⟩ 1).store.rows
      = [⟨1, ""⟩] := rfl

/-- C3 (amended): `add_task` alone never persists an empty-titled Task (the
empty-buffer case skips the write), so it preserves the all-titles-non-empty
invariant; `update_task`, however, persists the buffer unchecked, so the
invariant can be broken by an update with an empty buffer. -/
theorem C3_amended_add_preserves_nonempty (v w : TaskView)
    (hinv : v.store.rows.all (fun t => !(t.title == "")) = true)
    (hok : v.add_task = Except.ok w) :
    w.store.rows.all (fun t => !(t.title == "")) = true := by
  by_cases h : v.title = ""
  · unfold TaskView.add_task at hok
    rw [if_neg (not_not_intro h)] at hok
    simp at hok
  · cases hw : v.store.writeOk with
    | false =>
      unfold TaskView.add_task Store.create at hok
      rw [if_pos h, hw] at hok
      simp at hok
    | true =>
      rw [add_task_ok v h hw] at hok
      injection hok with hok
      subst hok
      simp only [List.all_append, Bool.and_eq_true]
      refine ⟨hinv, ?_⟩
      simp [h]

/-- Witness for `C3_amended_add_preserves_nonempty` at a concrete add. -/
theorem C3_amended_witness :
    (⟨"", [], ⟨[⟨1, "a"⟩, ⟨2, "b"⟩], 3, true⟩, ["Successfully Added: b"]⟩
        : TaskView).store.rows.all (fun t => !(t.title == "")) = true :=
  C3_amended_add_preserves_nonempty ⟨"b", [], ⟨[⟨1, "a"⟩], 2, true⟩, []⟩ _ (by decide) rfl

/-- C4: with a non-empty buffer `t` and a working store, `add_task` succeeds,
the store afterwards holds exactly the old records plus one new Task titled
`t`, and the buffer is empty afterward. -/
theorem C4_add_task_appends (v : TaskView) (h : v.title ≠ "") (hw : v.store.writeOk = true) :
    v.add_task = Except.ok
      { v with
          title := ""
          store := { v.store with rows := v.store.rows ++ [⟨v.store.nextId, v.title⟩], nextId := v.store.nextId + 1 }
          msgs := v.msgs ++ ["Successfully Added: " ++ v.title] } :=
  add_task_ok v h hw

/-- Witness for `C4_add_task_appends` on a store holding one prior Task. -/
theorem C4_add_task_appends_witness :
    TaskView.add_task ⟨"b", [], ⟨[⟨1, "a"⟩], 2, true⟩, []⟩
      = Except.ok ⟨"", [], ⟨[⟨1, "a"⟩, ⟨2, "b"⟩], 3, true⟩, ["Successfully Added: b"]⟩ :=
  C4_add_task_appends ⟨"b", [], ⟨[⟨1, "a"⟩], 2, true⟩, []⟩ (by decide) rfl

/-- C5: for an id that does not identify any existing Task, `delete_task`,
`preview_task` and `update_task` are all exact no-ops: the whole component
state (store, tasks snapshot, title buffer, messages) is unchanged and no
error escapes (the lookup failure is swallowed); in particular `update_task`
retains the buffer. -/
theorem C5_missing_id_noops (v : TaskView) (i : Nat)
    (h : ∀ t ∈ v.store.rows, t.id ≠ i) :
    v.delete_task i = v ∧ v.preview_task i = v ∧ v.update_task i = v := by
  have hg := Store.get_eq_none h
  refine ⟨?_, ?_, ?_⟩
  · simp [TaskView.delete_task, TaskView.delete_task_body, hg]
  · simp [TaskView.preview_task, TaskView.preview_task_body, hg]
  · simp [TaskView.update_task, TaskView.update_task_body, hg]

/-- Witness for `C5_missing_id_noops` with id 5 absent from the store. -/
theorem C5_missing_id_noops_witness :
    TaskView.delete_task ⟨"x", [], ⟨[⟨1, "a"⟩], 2, true⟩, []⟩ 5
        = ⟨"x", [], ⟨[⟨1, "a"⟩], 2, true⟩, []⟩
      ∧ TaskView.preview_task ⟨"x", [], ⟨[⟨1, "a"⟩], 2, true⟩, []⟩ 5
        = ⟨"x", [], ⟨[⟨1, "a"⟩], 2, true⟩, []⟩
      ∧ TaskView.update_task ⟨"x", [], ⟨[⟨1, "a"⟩], 2, true⟩, []⟩ 5
        = ⟨"x", [], ⟨[⟨1, "a"⟩], 2, true⟩, []⟩ :=
  C5_missing_id_noops ⟨"x", [], ⟨[⟨1, "a"⟩], 2, true⟩, []⟩ 5 (by decide)

/-- C6: deleting an existing Task removes exactly the record with that id
(every other record is kept, in order), and the `tasks` snapshot after the
next `hydrate` no longer contains it. -/
theorem C6_delete_existing (v : TaskView) (i : Nat) (t : Task)
    (hget : v.store.get i = some t) (hw : v.store.writeOk = true) :
    (v.delete_task i).store.rows = v.store.rows.filter (fun r => r.id != i)
      ∧ ((v.delete_task i).hydrate).tasks = v.store.rows.filter (fun r => r.id != i)
      ∧ t ∉ ((v.delete_task i).hydrate).tasks := by
  have hrows : (v.delete_task i).store.rows = v.store.rows.filter (fun r => r.id != i) := by
    simp [TaskView.delete_task, TaskView.delete_task_body, hget, Store.deleteRow, hw]
  refine ⟨hrows, by simp [TaskView.hydrate, hrows], ?_⟩
  simp only [TaskView.hydrate, hrows]
  intro hmem
  have hne := (List.mem_filter.mp hmem).2
  rw [Store.get_id_eq hget] at hne
  simp at hne

/-- Witness for `C6_delete_existing` on a two-Task store. -/
theorem C6_delete_existing_witness :
    (TaskView.delete_task ⟨"", [], ⟨[⟨1, "a"⟩, ⟨2, "b"⟩], 3, true⟩, []⟩ 1).store.rows
        = [⟨1, "a"⟩, ⟨2, "b"⟩].filter (fun r => r.id != 1)
      ∧ ((TaskView.delete_task ⟨"", [], ⟨[⟨1, "a"⟩, ⟨2, "b"⟩], 3, true⟩, []⟩ 1).hydrate).tasks
        = [⟨1, "a"⟩, ⟨2, "b"⟩].filter (fun r => r.id != 1)
      ∧ (⟨1, "a"⟩ : Task)
        ∉ ((TaskView.delete_task ⟨"", [], ⟨[⟨1, "a"⟩, ⟨2, "b"⟩], 3, true⟩, []⟩ 1).hydrate).tasks :=
  C6_delete_existing ⟨"", [], ⟨[⟨1, "a"⟩, ⟨2, "b"⟩], 3, true⟩, []⟩ 1 ⟨1, "a"⟩ rfl rfl

/-- C7: updating an existing Task with the current buffer rewrites exactly
that record's title to the buffer, clears the buffer, and keeps the store's
record count unchanged. -/
theorem C7_update_existing (v : TaskView) (i : Nat) (t : Task)
    (hget : v.store.get i = some t) (hw : v.store.writeOk = true) :
    (v.update_task i).store.rows
        = v.store.rows.map (fun r => if r.id == i then ⟨i, v.title⟩ else r)
      ∧ (v.update_task i).title = ""
      ∧ (v.update_task i).store.rows.length = v.store.rows.length := by
  rw [update_task_ok v i t hget hw]
  exact ⟨rfl, rfl, List.length_map _ _⟩

/-- Witness for `C7_update_existing` on a two-Task store. -/
theorem C7_update_existing_witness :
    (TaskView.update_task ⟨"c", [], ⟨[⟨1, "a"⟩, ⟨2, "b"⟩], 3, true⟩, []⟩ 2).store.rows
        = [⟨1, "a"⟩, ⟨2, "b"⟩].map (fun r => if r.id == 2 then ⟨2, "c"⟩ else r)
      ∧ (TaskView.update_task ⟨"c", [], ⟨[⟨1, "a"⟩, ⟨2, "b"⟩], 3, true⟩, []⟩ 2).title = ""
      ∧ (TaskView.update_task ⟨"c", [], ⟨[⟨1, "a"⟩, ⟨2, "b"⟩], 3, true⟩, []⟩ 2).store.rows.length
        = ([⟨1, "a"⟩, ⟨2, "b"⟩] : List Task).length :=
  C7_update_existing ⟨"c", [], ⟨[⟨1, "a"⟩, ⟨2, "b"⟩], 3, true⟩, []⟩ 2 ⟨2, "b"⟩ rfl rfl

/-- C8: previewing an existing Task only loads its title into the buffer; the
store, the tasks snapshot and the messages are all left untouched. -/
theorem C8_preview_existing (v : TaskView) (i : Nat) (t : Task)
    (hget : v.store.get i = some t) :
    v.preview_task i = { v with title := t.title } := by
  simp [TaskView.preview_task, TaskView.preview_task_body, hget]

/-- Witness for `C8_preview_existing` on a two-Task store. -/
theorem C8_preview_existing_witness :
    TaskView.preview_task ⟨"", [], ⟨[⟨1, "a"⟩, ⟨2, "b"⟩], 3, true⟩, []⟩ 2
      = ⟨"b", [], ⟨[⟨1, "a"⟩, ⟨2, "b"⟩], 3, true⟩, []⟩ :=
  C8_preview_existing ⟨"", [], ⟨[⟨1, "a"⟩, ⟨2, "b"⟩], 3, true⟩, []⟩ 2 ⟨2, "b"⟩ rfl

/-- C9: the spec's scenario, starting from an empty store: add "Buy milk",
preview it (buffer becomes "Buy milk"), set the buffer to "Buy bread",
update (the single Task is retitled), then delete (store empties); the
hydrated tasks snapshot at each step is as the spec lists. -/
theorem C9_scenario :
    TaskView.add_task (TaskView.hydrate ⟨"Buy milk", [], ⟨[], 1, true⟩, []⟩)
        = Except.ok ⟨"", [], ⟨[⟨1, "Buy milk"⟩], 2, true⟩, ["Successfully Added: Buy milk"]⟩
      ∧ (TaskView.hydrate ⟨"", [], ⟨[⟨1, "Buy milk"⟩], 2, true⟩, ["Successfully Added: Buy milk"]⟩).tasks
        = [⟨1, "Buy milk"⟩]
      ∧ (TaskView.preview_task
            (TaskView.hydrate ⟨"", [], ⟨[⟨1, "Buy milk"⟩], 2, true⟩, ["Successfully Added: Buy milk"]⟩) 1).title
        = "Buy milk"
      ∧ (TaskView.update_task
            (TaskView.hydrate ⟨"Buy bread", [⟨1, "Buy milk"⟩], ⟨[⟨1, "Buy milk"⟩], 2, true⟩, ["Successfully Added: Buy milk"]⟩) 1).store.rows
        = [⟨1, "Buy bread"⟩]
      ∧ (TaskView.delete_task
            (TaskView.hydrate ⟨"", [⟨1, "Buy bread"⟩], ⟨[⟨1, "Buy bread"⟩], 2, true⟩, ["Successfully Added: Buy milk"]⟩) 1).store.rows
        = [] :=
  ⟨rfl, rfl, rfl, rfl, rfl⟩

/-- C10: previewing an existing Task and immediately updating it (with no
buffer edit in between) writes the title back unchanged: the store — and in
particular that Task's title — ends exactly as it started, the tasks
snapshot and messages are untouched, and the buffer ends empty. -/
theorem C10_preview_update_roundtrip (v : TaskView) (i : Nat) (t : Task)
    (hget : v.store.get i = some t) (hw : v.store.writeOk = true) :
    (v.preview_task i).update_task i = { v with title := "" } := by
  have hprev : v.preview_task i = { v with title := t.title } := by
    simp [TaskView.preview_task, TaskView.preview_task_body, hget]
  rw [hprev, update_task_ok ({ v with title := t.title }) i t hget hw]
  have hrep : v.store.rows.map (fun r => if r.id == i then (⟨i, t.title⟩ : Task) else r)
      = v.store.rows := by
    have hid := Store.get_id_eq hget
    have : (⟨i, t.title⟩ : Task) = t := by
      cases t
      simp_all
    rw [this]
    exact map_replace_self (Store.get_filter_eq hget)
  rw [hrep]

/-- Witness for `C10_preview_update_roundtrip` on a two-Task store. -/
theorem C10_preview_update_roundtrip_witness :
    (TaskView.preview_task ⟨"x", [], ⟨[⟨1, "a"⟩, ⟨2, "b"⟩], 3, true⟩, []⟩ 2).update_task 2
      = ⟨"", [], ⟨[⟨1, "a"⟩, ⟨2, "b"⟩], 3, true⟩, []⟩ :=
  C10_preview_update_roundtrip ⟨"x", [], ⟨[⟨1, "a"⟩, ⟨2, "b"⟩], 3, true⟩, []⟩ 2 ⟨2, "b"⟩ rfl rfl

end ReactiveDjango
